import Mathlib

/-!
# Verification of the SceneManager module (CS-330 3D scene demo)

Shallow embedding of `Source/SceneManager.cpp` / `SceneManager.h`.

Modelling conventions:
* C++ `float` arithmetic is modelled over `ℝ` (the claims under scrutiny are
  structural — composition order, lookup semantics, registry bookkeeping —
  not about rounding).
* The shader collaborator (`ShaderManager`) is modelled as an event log: every
  uniform upload and every mesh draw/load appends an `Event`.  The
  `SceneManager` constructor receives a non-null shader pointer, so the
  `NULL != m_pShaderManager` guards in the source always take the non-null
  branch; the embedding models that branch.
* `stbi_load` is external input: it is modelled as an oracle
  `images : String → Option ImageData` mapping a filename to the decoded
  image metadata (or `none` on failure).
* `glGenTextures` hands out fresh GPU handles: modelled by a `nextHandle`
  counter in the state.  Pure GL configuration calls
  (`glTexParameteri`, `glTexImage2D`, `glGenerateMipmap`, unbinding) have no
  observable effect on the data model and are not recorded.
* The 16-entry C array `TEXTURE_INFO m_textureIDs[16]` is a `List` of length
  16; writes out of `[0,16)` would be undefined behaviour in C++, so the
  registry write in `CreateGLTexture` additionally records the written index
  in `writeLog`, and the scanning loops return the list of indices they
  inspect, so that the in-bounds claims can be stated.
* `std::cout` messages are appended to a `log` list of strings.
-/

/-- 2-component float vector (`glm::vec2`). -/
structure Vec2 where
  x : ℝ
  y : ℝ

/-- 3-component float vector (`glm::vec3`). -/
structure Vec3 where
  x : ℝ
  y : ℝ
  z : ℝ

/-- 4-component float vector (`glm::vec4`). -/
structure Vec4 where
  x : ℝ
  y : ℝ
  z : ℝ
  w : ℝ

/-- 4×4 float matrix (`glm::mat4`), in mathematical (row, column) convention:
GLM stores matrices column-major and multiplies them as ordinary mathematical
matrices, so each GLM matrix is translated to its mathematical form and GLM
`operator*` becomes `Matrix` multiplication. -/
abbrev Mat4 := Matrix (Fin 4) (Fin 4) ℝ

/-- `SceneManager::TEXTURE_INFO`: `{std::string tag; uint32_t ID;}`. -/
structure TEXTURE_INFO where
  tag : String
  ID : Nat
deriving DecidableEq

/-- Default-constructed `TEXTURE_INFO` (the 16 array slots before any load:
empty tag; the `uint32_t` handle is modelled as 0). -/
def defaultTextureInfo : TEXTURE_INFO := ⟨"", 0⟩

/-- `SceneManager::OBJECT_MATERIAL`. -/
structure OBJECT_MATERIAL where
  tag : String
  ambientColor : Vec3
  ambientStrength : ℝ
  diffuseColor : Vec3
  specularColor : Vec3
  shininess : ℝ

/-- A default/uninitialised `OBJECT_MATERIAL` (the local variable passed by
reference to `FindMaterial` by `SetShaderMaterial`). -/
def defaultMaterial : OBJECT_MATERIAL :=
  ⟨"", ⟨0, 0, 0⟩, 0, ⟨0, 0, 0⟩, ⟨0, 0, 0⟩, 0⟩

/-- Decoded image metadata returned by `stbi_load`. -/
structure ImageData where
  width : Nat
  height : Nat
  colorChannels : Nat

/-- The nine primitive mesh kinds of the `ShapeMeshes` collaborator. -/
inductive ShapeKind where
  | plane
  | box
  | cone
  | prism
  | pyramid3
  | sphere
  | torus
  | taperedCylinder
  | cylinder
deriving DecidableEq

/-- Observable effects on the shader / mesh collaborators. -/
inductive Event where
  | setMat4 (name : String) (m : Mat4)
  | setVec4 (name : String) (v : Vec4)
  | setVec3 (name : String) (v : Vec3)
  | setVec2 (name : String) (v : Vec2)
  | setFloat (name : String) (value : ℝ)
  | setInt (name : String) (value : Int)
  | setSampler (name : String) (value : Int)
  | activeTexture (unit : Nat)
  | bindTexture (handle : Nat)
  | loadMesh (shape : ShapeKind)
  | draw (shape : ShapeKind)

/-- The state of a `SceneManager` object together with its observable
environment (shader uniform log, GL handle counter, stdout log, and the
instrumentation logs for registry array accesses). -/
structure SceneState where
  loadedTextures : Nat
  textureIDs : List TEXTURE_INFO
  objectMaterials : List OBJECT_MATERIAL
  nextHandle : Nat
  events : List Event
  log : List String
  writeLog : List Nat
  readLog : List Nat

/-- The state right after the `SceneManager` constructor: no textures loaded,
16 default-initialised registry slots, no materials. -/
def initialState : SceneState :=
  { loadedTextures := 0
    textureIDs := List.replicate 16 defaultTextureInfo
    objectMaterials := []
    nextHandle := 1
    events := []
    log := []
    writeLog := []
    readLog := [] }

/-- Append one shader/mesh event. -/
def emit (s : SceneState) (e : Event) : SceneState :=
  { s with events := s.events ++ [e] }

/-- Append one `std::cout` line. -/
def logLine (s : SceneState) (msg : String) : SceneState :=
  { s with log := s.log ++ [msg] }

/-- The `while ((index < m_loadedTextures) && (bFound == false))` loop of
`SceneManager::FindTextureID`, compiled structurally: `remaining` is the
number of loop iterations still allowed (`m_loadedTextures - index`).  Besides
the result it returns the list of array indices the loop inspected, for the
bounds claims. -/
def findTextureIDGo (arr : List TEXTURE_INFO) (tag : String) :
    Nat → Nat → Int × List Nat
  | _, 0 => (-1, [])
  | index, remaining + 1 =>
    if (arr.getD index defaultTextureInfo).tag = tag then
      (Int.ofNat (arr.getD index defaultTextureInfo).ID, [index])
    else
      let r := findTextureIDGo arr tag (index + 1) remaining
      (r.1, index :: r.2)

/-- `SceneManager::FindTextureID`: linear scan from index 0 below
`m_loadedTextures`; returns the GPU handle of the first match, `-1` if none. -/
def FindTextureID (s : SceneState) (tag : String) : Int :=
  (findTextureIDGo s.textureIDs tag 0 s.loadedTextures).1

/-- The scan loop of `SceneManager::FindTextureSlot`, same compilation scheme
as `findTextureIDGo` but returning the matching index itself. -/
def findTextureSlotGo (arr : List TEXTURE_INFO) (tag : String) :
    Nat → Nat → Int × List Nat
  | _, 0 => (-1, [])
  | index, remaining + 1 =>
    if (arr.getD index defaultTextureInfo).tag = tag then
      (Int.ofNat index, [index])
    else
      let r := findTextureSlotGo arr tag (index + 1) remaining
      (r.1, index :: r.2)

/-- `SceneManager::FindTextureSlot`: linear scan from index 0 below
`m_loadedTextures`; returns the slot index of the first match, `-1` if none. -/
def FindTextureSlot (s : SceneState) (tag : String) : Int :=
  (findTextureSlotGo s.textureIDs tag 0 s.loadedTextures).1

/-- The `while ((index < m_objectMaterials.size()) && (bFound == false))` loop
of `SceneManager::FindMaterial`: scans the vector in order, and on the first
tag match copies `ambientColor`, `ambientStrength`, `diffuseColor`,
`specularColor` and `shininess` (not the tag) into the by-reference out
parameter `material`, stopping the scan. -/
def findMaterialGo : List OBJECT_MATERIAL → String → OBJECT_MATERIAL →
    OBJECT_MATERIAL
  | [], _, material => material
  | m :: rest, tag, material =>
    if m.tag = tag then
      { material with
        ambientColor := m.ambientColor
        ambientStrength := m.ambientStrength
        diffuseColor := m.diffuseColor
        specularColor := m.specularColor
        shininess := m.shininess }
    else
      findMaterialGo rest tag material

/-- `SceneManager::FindMaterial`: returns `false` when the material list is
empty; otherwise runs the scan loop and then returns `true` unconditionally
(the source returns the literal `true`, not `bFound`).  The returned pair is
(return value, final value of the out parameter `material`). -/
def FindMaterial (mats : List OBJECT_MATERIAL) (tag : String)
    (material : OBJECT_MATERIAL) : Bool × OBJECT_MATERIAL :=
  if mats.length = 0 then
    (false, material)
  else
    (true, findMaterialGo mats tag material)

/-- `SceneManager::LoadSceneMaterials`: pushes the five presets
marble, gold, granite, wall, lamp (in that order) onto `m_objectMaterials`. -/
def LoadSceneMaterials (s : SceneState) : SceneState :=
  let marble : OBJECT_MATERIAL :=
    ⟨"marble", ⟨0.2, 0.2, 0.2⟩, 0.4, ⟨0.9, 0.9, 0.9⟩, ⟨0.3, 0.3, 0.3⟩, 16.0⟩
  let gold : OBJECT_MATERIAL :=
    ⟨"gold", ⟨0.25, 0.20, 0.07⟩, 0.3, ⟨0.8, 0.65, 0.25⟩, ⟨0.65, 0.55, 0.35⟩, 51.2⟩
  let granite : OBJECT_MATERIAL :=
    ⟨"granite", ⟨0.2, 0.2, 0.2⟩, 0.35, ⟨0.6, 0.6, 0.6⟩, ⟨0.2, 0.2, 0.2⟩, 8.0⟩
  let wall : OBJECT_MATERIAL :=
    ⟨"wall", ⟨1.0, 1.0, 1.0⟩, 0.5, ⟨1.0, 1.0, 1.0⟩, ⟨0.1, 0.1, 0.1⟩, 1.0⟩
  let lamp : OBJECT_MATERIAL :=
    ⟨"lamp", ⟨1.0, 1.0, 1.0⟩, 0.5, ⟨1.0, 1.0, 1.0⟩, ⟨0.2, 0.2, 0.2⟩, 2.0⟩
  { s with objectMaterials :=
      s.objectMaterials ++ [marble, gold, granite, wall, lamp] }

/-- The five material presets as a plain list (the contents of
`m_objectMaterials` after `LoadSceneMaterials` on an empty vector). -/
def sceneMaterials : List OBJECT_MATERIAL :=
  (LoadSceneMaterials initialState).objectMaterials

/-- The occupied prefix of the texture registry (slots `0..m_loadedTextures`).
All registry reads in the source are restricted to this prefix. -/
def occupiedEntries (s : SceneState) : List TEXTURE_INFO :=
  s.textureIDs.take s.loadedTextures

/-- The tags of the occupied registry slots, in slot order. -/
def occupiedTags (s : SceneState) : List String :=
  (occupiedEntries s).map TEXTURE_INFO.tag

/-- `SceneManager::CreateGLTexture`: tries to decode the image file (the
`stbi_load` oracle `images`); on success generates a GPU handle, and — when
the image has 3 or 4 colour channels — registers `{tag, handle}` in the next
registry slot (`m_textureIDs[m_loadedTextures]`, index recorded in
`writeLog`) and increments `m_loadedTextures`, returning `true`.  An image
with any other channel count, or a failed decode, is logged and returns
`false` without touching the registry.  The GL texture-parameter, image
upload and mipmap calls have no observable effect on the model. -/
def CreateGLTexture (images : String → Option ImageData) (s : SceneState)
    (filename : String) (tag : String) : Bool × SceneState :=
  match images filename with
  | some image =>
    let s := logLine s ("Successfully loaded image:" ++ filename)
    let textureID := s.nextHandle
    let s := { s with nextHandle := s.nextHandle + 1 }
    if image.colorChannels = 3 ∨ image.colorChannels = 4 then
      (true,
        { s with
          textureIDs := s.textureIDs.set s.loadedTextures ⟨tag, textureID⟩
          writeLog := s.writeLog ++ [s.loadedTextures]
          loadedTextures := s.loadedTextures + 1 })
    else
      (false, logLine s "Not implemented to handle image with channels")
  | none =>
    (false, logLine s ("Could not load image:" ++ filename))

/-- The `for (int i = 0; i < m_loadedTextures; i++)` loop of
`SceneManager::BindGLTextures`: binds slot `i`'s handle on texture unit `i`.
Each inspected registry index is recorded in `readLog`. -/
def bindGLTexturesGo : SceneState → Nat → Nat → SceneState
  | s, _, 0 => s
  | s, i, remaining + 1 =>
    let s := { s with readLog := s.readLog ++ [i] }
    let s := emit s (.activeTexture i)
    let s := emit s (.bindTexture (s.textureIDs.getD i defaultTextureInfo).ID)
    bindGLTexturesGo s (i + 1) remaining

/-- `SceneManager::BindGLTextures`. -/
def BindGLTextures (s : SceneState) : SceneState :=
  bindGLTexturesGo s 0 s.loadedTextures

/-- The `for (int i = 0; i < m_loadedTextures; i++)` loop of
`SceneManager::DestroyGLTextures`: `glGenTextures(1, &m_textureIDs[i].ID)`,
i.e. it stores a freshly generated handle into slot `i` (it does not delete
the old handle and does not remove the entry).  The written index is recorded
in `writeLog`. -/
def destroyGLTexturesGo : SceneState → Nat → Nat → SceneState
  | s, _, 0 => s
  | s, i, remaining + 1 =>
    destroyGLTexturesGo
      { s with
        textureIDs := s.textureIDs.set i
          ⟨(s.textureIDs.getD i defaultTextureInfo).tag, s.nextHandle⟩
        nextHandle := s.nextHandle + 1
        writeLog := s.writeLog ++ [i] }
      (i + 1) remaining

/-- `SceneManager::DestroyGLTextures`. -/
def DestroyGLTextures (s : SceneState) : SceneState :=
  destroyGLTexturesGo s 0 s.loadedTextures

/-- `glm::radians`: degrees to radians. -/
noncomputable def glmRadians (degrees : ℝ) : ℝ := degrees * (Real.pi / 180)

/-- `glm::scale(v)`: diagonal scaling matrix. -/
def glmScale (v : Vec3) : Mat4 :=
  !![v.x, 0, 0, 0;
     0, v.y, 0, 0;
     0, 0, v.z, 0;
     0, 0, 0, 1]

/-- `glm::translate(v)`: translation matrix (translation in the last
column in mathematical convention, matching GLM's last storage column). -/
def glmTranslate (v : Vec3) : Mat4 :=
  !![1, 0, 0, v.x;
     0, 1, 0, v.y;
     0, 0, 1, v.z;
     0, 0, 0, 1]

/-- `glm::rotate(angle, axis)`: the Rodrigues rotation matrix, transcribed
from GLM's `rotate` with the column-major storage transposed into
mathematical (row, column) convention.  GLM normalises the axis; the scene
only ever passes the unit coordinate axes, for which normalisation is the
identity, so the embedding takes the axis as given. -/
noncomputable def glmRotate (angle : ℝ) (axis : Vec3) : Mat4 :=
  let c := Real.cos angle
  let s := Real.sin angle
  !![c + (1 - c) * axis.x * axis.x,
     (1 - c) * axis.y * axis.x - s * axis.z,
     (1 - c) * axis.z * axis.x + s * axis.y, 0;
     (1 - c) * axis.x * axis.y + s * axis.z,
     c + (1 - c) * axis.y * axis.y,
     (1 - c) * axis.z * axis.y - s * axis.x, 0;
     (1 - c) * axis.x * axis.z - s * axis.y,
     (1 - c) * axis.y * axis.z + s * axis.x,
     c + (1 - c) * axis.z * axis.z, 0;
     0, 0, 0, 1]

/-- The model matrix computed by `SceneManager::SetTransformations`:
`modelView = translation * rotationX * rotationY * rotationZ * scale`, with
each rotation built by `glm::rotate` about the corresponding unit axis and
the angles converted with `glm::radians`. -/
noncomputable def modelMatrix (scaleXYZ : Vec3)
    (XrotationDegrees YrotationDegrees ZrotationDegrees : ℝ)
    (positionXYZ : Vec3) : Mat4 :=
  let scale := glmScale scaleXYZ
  let rotationX := glmRotate (glmRadians XrotationDegrees) ⟨1.0, 0.0, 0.0⟩
  let rotationY := glmRotate (glmRadians YrotationDegrees) ⟨0.0, 1.0, 0.0⟩
  let rotationZ := glmRotate (glmRadians ZrotationDegrees) ⟨0.0, 0.0, 1.0⟩
  let translation := glmTranslate positionXYZ
  translation * rotationX * rotationY * rotationZ * scale

/-- `SceneManager::SetTransformations`: uploads the composed model matrix to
the shader uniform `g_ModelName = "model"`. -/
noncomputable def SetTransformations (s : SceneState) (scaleXYZ : Vec3)
    (XrotationDegrees YrotationDegrees ZrotationDegrees : ℝ)
    (positionXYZ : Vec3) : SceneState :=
  emit s (.setMat4 "model" (modelMatrix scaleXYZ XrotationDegrees
    YrotationDegrees ZrotationDegrees positionXYZ))

/-- `SceneManager::SetShaderColor`: uploads `bUseTexture = false` (the C++
`bool` passes through `setIntValue`, so `false` is the integer 0) and then
the colour into `g_ColorValueName = "objectColor"`. -/
def SetShaderColor (s : SceneState)
    (redColorValue greenColorValue blueColorValue alphaValue : ℝ) :
    SceneState :=
  let s := emit s (.setInt "bUseTexture" 0)
  emit s (.setVec4 "objectColor"
    ⟨redColorValue, greenColorValue, blueColorValue, alphaValue⟩)

/-- `SceneManager::SetShaderTexture`: uploads `bUseTexture = true` (integer
1) and then the slot returned by `FindTextureSlot` as the sampler value of
`g_TextureValueName = "objectTexture"`.  The registry indices the lookup
inspected are recorded in `readLog`. -/
def SetShaderTexture (s : SceneState) (textureTag : String) : SceneState :=
  let s := emit s (.setInt "bUseTexture" 1)
  let r := findTextureSlotGo s.textureIDs textureTag 0 s.loadedTextures
  let s := { s with readLog := s.readLog ++ r.2 }
  emit s (.setSampler "objectTexture" r.1)

/-- `SceneManager::SetTextureUVScale`. -/
def SetTextureUVScale (s : SceneState) (u v : ℝ) : SceneState :=
  emit s (.setVec2 "UVscale" ⟨u, v⟩)

/-- `SceneManager::SetShaderMaterial`: when the material list is non-empty,
looks the tag up with `FindMaterial` (out parameter initialised to the
default-constructed `OBJECT_MATERIAL`) and, when the lookup reports success,
uploads the five material uniforms. -/
def SetShaderMaterial (s : SceneState) (materialTag : String) : SceneState :=
  if 0 < s.objectMaterials.length then
    let r := FindMaterial s.objectMaterials materialTag defaultMaterial
    if r.1 = true then
      let s := emit s (.setVec3 "material.ambientColor" r.2.ambientColor)
      let s := emit s (.setFloat "material.ambientStrength" r.2.ambientStrength)
      let s := emit s (.setVec3 "material.diffuseColor" r.2.diffuseColor)
      let s := emit s (.setVec3 "material.specularColor" r.2.specularColor)
      emit s (.setFloat "material.shininess" r.2.shininess)
    else s
  else s

/-- `SceneManager::SetupSceneLights`: uploads the directional light and the
spot light uniforms. -/
noncomputable def SetupSceneLights (s : SceneState) : SceneState :=
  let s := emit s (.setVec3 "dirLight.direction" ⟨-0.5, -0.8, 0.8⟩)
  let s := emit s (.setVec3 "dirLight.ambient" ⟨0.3, 0.3, 0.3⟩)
  let s := emit s (.setVec3 "dirLight.diffuse" ⟨0.7, 0.7, 0.7⟩)
  let s := emit s (.setVec3 "spotLight.position" ⟨5.5, 4.0, 0.5⟩)
  let s := emit s (.setVec3 "spotLight.direction" ⟨-0.8, -1.0, -0.2⟩)
  let s := emit s (.setVec3 "spotLight.ambient" ⟨0.1, 0.1, 0.1⟩)
  let s := emit s (.setVec3 "spotLight.diffuse" ⟨1.0, 0.95, 0.8⟩)
  let s := emit s (.setVec3 "spotLight.specular" ⟨1.0, 1.0, 1.0⟩)
  let s := emit s (.setFloat "spotLight.constant" 1.0)
  let s := emit s (.setFloat "spotLight.linear" 0.045)
  let s := emit s (.setFloat "spotLight.quadratic" 0.0075)
  let s := emit s (.setFloat "spotLight.cutOff" (Real.cos (glmRadians 15.0)))
  emit s (.setFloat "spotLight.outerCutOff" (Real.cos (glmRadians 25.0)))

/-- `SceneManager::LoadSceneTextures`: eight `CreateGLTexture` calls whose
boolean results are assigned to a local and otherwise ignored, then
`BindGLTextures`. -/
def LoadSceneTextures (images : String → Option ImageData) (s : SceneState) :
    SceneState :=
  let s := (CreateGLTexture images s "textures/wood.jpg" "wood").2
  let s := (CreateGLTexture images s "textures/wall.jpg" "wall").2
  let s := (CreateGLTexture images s "textures/pot.jpg" "pot").2
  let s := (CreateGLTexture images s "textures/leaf.jpg" "leaf").2
  let s := (CreateGLTexture images s "textures/lamp.jpg" "lamp").2
  let s := (CreateGLTexture images s "textures/marble.jpg" "marble").2
  let s := (CreateGLTexture images s "textures/granite.jpg" "granite").2
  let s := (CreateGLTexture images s "textures/gold.jpg" "gold").2
  BindGLTextures s

/-- `SceneManager::PrepareScene`: `LoadSceneTextures`, `LoadSceneMaterials`,
then the nine primitive meshes, each loaded once, in source order. -/
def PrepareScene (images : String → Option ImageData) (s : SceneState) :
    SceneState :=
  let s := LoadSceneTextures images s
  let s := LoadSceneMaterials s
  let s := emit s (.loadMesh .plane)
  let s := emit s (.loadMesh .box)
  let s := emit s (.loadMesh .cone)
  let s := emit s (.loadMesh .prism)
  let s := emit s (.loadMesh .pyramid3)
  let s := emit s (.loadMesh .sphere)
  let s := emit s (.loadMesh .torus)
  let s := emit s (.loadMesh .taperedCylinder)
  emit s (.loadMesh .cylinder)

/-- The `for (int i = 0; i < leafCount; i++)` loop at the end of
`SceneManager::RenderScene` (`leafCount = 10`): per leaf, scale
`(0.12, 1.5 + (i % 3) * 0.2, 0.4)`, position `(2.0, 1.3, 0.0)`,
Y rotation `i * (360 / leafCount)` degrees, X tilt `20 + i * 3`, Z lean
`±5` by parity, then one tapered-cylinder draw. -/
noncomputable def renderLeafLoopGo : SceneState → Nat → Nat → SceneState
  | s, _, 0 => s
  | s, i, remaining + 1 =>
    let randomHeight : ℝ := 1.5 + (i % 3 : ℕ) * 0.2
    let scaleXYZ : Vec3 := ⟨0.12, randomHeight, 0.4⟩
    let positionXYZ : Vec3 := ⟨2.0, 1.3, 0.0⟩
    let yRotation : ℝ := (i : ℝ) * (360.0 / 10)
    let xTilt : ℝ := 20.0 + (i : ℝ) * 3.0
    let zLean : ℝ := if i % 2 = 0 then 5.0 else -5.0
    let s := SetTransformations s scaleXYZ xTilt yRotation zLean positionXYZ
    let s := emit s (.draw .taperedCylinder)
    renderLeafLoopGo s (i + 1) remaining

/-- `SceneManager::RenderScene`: `SetupSceneLights`, then the fixed scene
script — back wall, desk surface, lamp base, lamp neck, lamp shade, lamp
bulb, lamp joint, clock body, clock face, pot, and the ten-leaf loop —
transcribed statement by statement from the source. -/
noncomputable def RenderScene (s : SceneState) : SceneState :=
  let s := SetupSceneLights s
  -- The back wall
  let s := SetTransformations s ⟨40.0, 1.0, 40.0⟩ (-90.0) 0.0 0.0
    ⟨0.0, 4.0, -10.0⟩
  let s := SetShaderTexture s "wall"
  let s := emit s (.setInt "bUseTexture" 1)
  let s := SetTextureUVScale s 1.0 1.0
  let s := SetShaderMaterial s "wall"
  let s := emit s (.draw .plane)
  -- Desk surface
  let s := SetTransformations s ⟨20.0, 1.0, 20.0⟩ 0.0 0.0 0.0 ⟨0.0, -0.5, 0.0⟩
  let s := SetShaderMaterial s "wall"
  let s := SetShaderColor s 1.0 1.0 1.0 1.0
  let s := emit s (.draw .plane)
  -- Lamp base
  let s := SetTransformations s ⟨1.5, 0.2, 1.5⟩ 0.0 0.0 0.0 ⟨5.0, 0.0, 0.0⟩
  let s := SetShaderMaterial s "granite"
  let s := SetShaderColor s 0.85 0.85 0.85 1.0
  let s := emit s (.draw .cylinder)
  -- Lamp neck
  let s := SetTransformations s ⟨0.05, 4.0, 0.05⟩ 0.0 0.0 0.0 ⟨6.0, 0.0, 0.0⟩
  let s := SetShaderMaterial s "lamp"
  let s := emit s (.draw .cylinder)
  -- Lamp shade
  let s := SetTransformations s ⟨1.2, 1.5, 1.2⟩ (-45.0) 0.0 0.0 ⟨5.5, 3.8, 0.0⟩
  let s := SetShaderMaterial s "lamp"
  let s := emit s (.draw .taperedCylinder)
  -- Lamp bulb
  let s := SetTransformations s ⟨0.2, 0.2, 0.2⟩ 0.0 0.0 0.0 ⟨5.5, 3.6, 0.0⟩
  let s := SetShaderColor s 1.0 1.0 0.0 1.0
  let s := emit s (.setInt "bUseTexture" 0)
  let s := emit s (.draw .sphere)
  -- Lamp joint
  let s := SetTransformations s ⟨0.15, 0.3, 0.15⟩ 0.0 0.0 90.0 ⟨6.0, 4.0, -0.2⟩
  let s := SetShaderMaterial s "gold"
  let s := emit s (.draw .cylinder)
  -- Clock
  let s := SetTransformations s ⟨1.6, 0.05, 1.6⟩ 90.0 0.0 0.0
    ⟨-2.0, 7.0, -4.95⟩
  let s := SetShaderMaterial s "marble"
  let s := emit s (.setInt "bUseTexture" 0)
  let s := SetShaderColor s 0.2 0.2 0.2 1.0
  let s := emit s (.draw .cylinder)
  -- Clock face
  let s := SetTransformations s ⟨1.5, 0.1, 1.5⟩ 90.0 0.0 0.0 ⟨-2.0, 7.0, -4.9⟩
  let s := SetShaderTexture s "wood"
  let s := emit s (.setInt "bUseTexture" 1)
  let s := emit s (.draw .cylinder)
  -- Pot
  let s := SetTransformations s ⟨1.2, 1.0, 1.2⟩ 0.0 0.0 0.0 ⟨2.0, 0.5, 0.0⟩
  let s := SetShaderMaterial s "granite"
  let s := SetShaderColor s 0.8 0.8 0.8 1.0
  let s := emit s (.draw .sphere)
  -- Leaves
  let s := emit s (.setInt "bUseTexture" 1)
  let s := SetShaderTexture s "leaf"
  renderLeafLoopGo s 0 10

/-- The draw calls recorded in an event list, in order. -/
def drawCalls (events : List Event) : List ShapeKind :=
  events.filterMap fun e =>
    match e with
    | .draw shape => some shape
    | _ => none

/-- The mesh-load calls recorded in an event list, in order. -/
def meshLoads (events : List Event) : List ShapeKind :=
  events.filterMap fun e =>
    match e with
    | .loadMesh shape => some shape
    | _ => none

/-- The model-matrix uploads recorded in an event list, in order. -/
def modelUploads (events : List Event) : List Mat4 :=
  events.filterMap fun e =>
    match e with
    | .setMat4 name m => if name = "model" then some m else none
    | _ => none

/-- The value held by the shader flag `bUseTexture` after an event list has
been replayed: the last value uploaded for it, if any. -/
def lastUseTexture (events : List Event) : Option Int :=
  events.reverse.findSome? fun e =>
    match e with
    | .setInt name v => if name = "bUseTexture" then some v else none
    | _ => none

/-- A concrete registry state exercising the texture lookups: three occupied
slots with a duplicated tag, to pin down first-match behaviour. -/
def lookupDemoState : SceneState :=
  { initialState with
    loadedTextures := 3
    textureIDs :=
      [⟨"a", 5⟩, ⟨"b", 7⟩, ⟨"a", 9⟩] ++ List.replicate 13 defaultTextureInfo }

/-- Modelled from the spec: the standard rotation matrix about the X
coordinate axis by `a` radians ("each rotation about the corresponding
coordinate axis"). -/
noncomputable def rotationXMatrix (a : ℝ) : Mat4 :=
  !![1, 0, 0, 0;
     0, Real.cos a, -Real.sin a, 0;
     0, Real.sin a, Real.cos a, 0;
     0, 0, 0, 1]

/-- Modelled from the spec: the standard rotation matrix about the Y
coordinate axis by `a` radians. -/
noncomputable def rotationYMatrix (a : ℝ) : Mat4 :=
  !![Real.cos a, 0, Real.sin a, 0;
     0, 1, 0, 0;
     -Real.sin a, 0, Real.cos a, 0;
     0, 0, 0, 1]

/-- Modelled from the spec: the standard rotation matrix about the Z
coordinate axis by `a` radians. -/
noncomputable def rotationZMatrix (a : ℝ) : Mat4 :=
  !![Real.cos a, -Real.sin a, 0, 0;
     Real.sin a, Real.cos a, 0, 0;
     0, 0, 1, 0;
     0, 0, 0, 1]

/-- The events of an event list that are either a model-matrix upload or a
draw call, in order (for the transform-before-draw pairing). -/
def modelsAndDraws (events : List Event) : List Event :=
  events.filter fun e =>
    match e with
    | .draw _ => true
    | .setMat4 name _ => name == "model"
    | _ => false

/-- An image-load oracle under which every file decodes as a 3-channel
image (the nominal successful run of the fixed scene). -/
def allImagesLoad : String → Option ImageData := fun _ => some ⟨600, 400, 3⟩

/-- The scene state after `PrepareScene` on the freshly constructed manager,
with every image load succeeding. -/
def preparedState : SceneState := PrepareScene allImagesLoad initialState

/-- The scene state after `PrepareScene` then `RenderScene` (one frame of
the fixed scene). -/
noncomputable def renderedState : SceneState := RenderScene preparedState


/-- The scan loop of `FindTextureID` returns the handle of the first matching
entry among the `remaining` entries starting at `index`, and `-1` when none
matches. -/
theorem findTextureIDGo_fst (arr : List TEXTURE_INFO) (tag : String) :
    ∀ (remaining index : Nat), index + remaining ≤ arr.length →
      (findTextureIDGo arr tag index remaining).1 =
        (match ((arr.drop index).take remaining).find?
            (fun e => e.tag == tag) with
         | some e => Int.ofNat e.ID
         | none => -1) := by
  intro remaining
  induction remaining with
  | zero => intro index _; simp [findTextureIDGo]
  | succ n ih =>
    intro index h
    have hidx : index < arr.length := by omega
    have hdrop : arr.drop index = arr[index] :: arr.drop (index + 1) :=
      List.drop_eq_getElem_cons hidx
    have hgetD : arr.getD index defaultTextureInfo = arr[index] :=
      List.getD_eq_getElem arr defaultTextureInfo hidx
    rw [hdrop, List.take_succ_cons]
    by_cases htag : arr[index].tag = tag
    · rw [List.find?_cons_of_pos _ (by simpa using htag)]
      simp only [findTextureIDGo]
      rw [hgetD, if_pos htag]
    · rw [List.find?_cons_of_neg _ (by simpa using htag)]
      simp only [findTextureIDGo]
      rw [hgetD, if_neg htag]
      exact ih (index + 1) (by omega)

/-- The scan loop of `FindTextureSlot` returns the position of the first
matching entry among the `remaining` entries starting at `index`, and `-1`
when none matches. -/
theorem findTextureSlotGo_fst (arr : List TEXTURE_INFO) (tag : String) :
    ∀ (remaining index : Nat), index + remaining ≤ arr.length →
      (findTextureSlotGo arr tag index remaining).1 =
        (match ((arr.drop index).take remaining).findIdx?
            (fun e => e.tag == tag) with
         | some j => Int.ofNat (index + j)
         | none => -1) := by
  intro remaining
  induction remaining with
  | zero => intro index _; simp [findTextureSlotGo]
  | succ n ih =>
    intro index h
    have hidx : index < arr.length := by omega
    have hdrop : arr.drop index = arr[index] :: arr.drop (index + 1) :=
      List.drop_eq_getElem_cons hidx
    have hgetD : arr.getD index defaultTextureInfo = arr[index] :=
      List.getD_eq_getElem arr defaultTextureInfo hidx
    rw [hdrop, List.take_succ_cons]
    by_cases htag : arr[index].tag = tag
    · rw [List.findIdx?_cons, if_pos (by simpa using htag)]
      simp only [findTextureSlotGo]
      rw [hgetD, if_pos htag]
      simp
    · rw [List.findIdx?_cons, if_neg (by simpa using htag), List.findIdx?_succ]
      simp only [findTextureSlotGo]
      rw [hgetD, if_neg htag, ih (index + 1) (by omega)]
      cases hfi : ((arr.drop (index + 1)).take n).findIdx?
          (fun e => e.tag == tag) with
      | none => simp
      | some j =>
        simp only [hfi, Option.map_some']
        congr 1
        omega

/-- C3: for every state whose loaded-texture count is within the registry
list and every tag, `FindTextureID` returns the GPU handle of the first
occupied entry (scanning from index 0) whose tag equals the query, and
`FindTextureSlot` returns that entry's slot index; when no occupied entry
matches, both return the sentinel `-1`. -/
theorem c3_texture_lookup_linear_scan (s : SceneState) (tag : String)
    (h : s.loadedTextures ≤ s.textureIDs.length) :
    (FindTextureID s tag =
      (match (occupiedEntries s).find? (fun e => e.tag == tag) with
       | some e => Int.ofNat e.ID
       | none => -1)) ∧
    (FindTextureSlot s tag =
      (match (occupiedEntries s).findIdx? (fun e => e.tag == tag) with
       | some j => Int.ofNat j
       | none => -1)) := by
  constructor
  · have := findTextureIDGo_fst s.textureIDs tag s.loadedTextures 0
      (by omega)
    simpa [FindTextureID, occupiedEntries] using this
  · have := findTextureSlotGo_fst s.textureIDs tag s.loadedTextures 0
      (by omega)
    simpa [FindTextureSlot, occupiedEntries] using this

/-- Witness for C3 at a concrete input. -/
theorem c3_texture_lookup_linear_scan_witness :
    lookupDemoState.loadedTextures ≤ lookupDemoState.textureIDs.length ∧
    ((FindTextureID lookupDemoState "a" =
      (match (occupiedEntries lookupDemoState).find? (fun e => e.tag == "a")
          with
       | some e => Int.ofNat e.ID
       | none => -1)) ∧
     (FindTextureSlot lookupDemoState "a" =
      (match (occupiedEntries lookupDemoState).findIdx?
          (fun e => e.tag == "a") with
       | some j => Int.ofNat j
       | none => -1))) :=
  ⟨by decide, c3_texture_lookup_linear_scan lookupDemoState "a" (by decide)⟩

/-- C1: counterexample to the claim as stated, exhibiting the code bug.  With
the five scene material presets loaded (a non-empty list), `FindMaterial`
applied to the absent tag "velvet" returns `true` and leaves the out
parameter at its initial value: the source returns the literal `true`
instead of `bFound`, although its caller `SetShaderMaterial` treats the
result as a found flag, so a tag that is not present is reported as found. -/
theorem c1_findMaterial_absent_tag_returns_true :
    sceneMaterials.length = 5 ∧
    sceneMaterials.all (fun m => m.tag != "velvet") = true ∧
    FindMaterial sceneMaterials "velvet" defaultMaterial =
      (true, defaultMaterial) :=
  ⟨rfl, rfl, rfl⟩

/-- GLM's Rodrigues matrix at the unit X axis is the standard X rotation. -/
theorem glmRotate_unitX (a : ℝ) : glmRotate a ⟨1.0, 0.0, 0.0⟩ =
    rotationXMatrix a := by
  ext i j
  fin_cases i <;> fin_cases j <;>
    simp only [glmRotate, rotationXMatrix] <;> norm_num

/-- GLM's Rodrigues matrix at the unit Y axis is the standard Y rotation. -/
theorem glmRotate_unitY (a : ℝ) : glmRotate a ⟨0.0, 1.0, 0.0⟩ =
    rotationYMatrix a := by
  ext i j
  fin_cases i <;> fin_cases j <;>
    simp only [glmRotate, rotationYMatrix] <;> norm_num

/-- GLM's Rodrigues matrix at the unit Z axis is the standard Z rotation. -/
theorem glmRotate_unitZ (a : ℝ) : glmRotate a ⟨0.0, 0.0, 1.0⟩ =
    rotationZMatrix a := by
  ext i j
  fin_cases i <;> fin_cases j <;>
    simp only [glmRotate, rotationZMatrix] <;> norm_num

/-- C2: for every scale vector, rotation angles in degrees and position
vector, `SetTransformations` pushes to the shader uniform "model" exactly
the matrix `translate(position) * Rx * Ry * Rz * scale`, where each rotation
is the standard rotation about the corresponding coordinate axis by the
angle converted from degrees to radians. -/
theorem c2_setTransformations_model_matrix (s : SceneState) (scaleXYZ : Vec3)
    (x y z : ℝ) (positionXYZ : Vec3) :
    (SetTransformations s scaleXYZ x y z positionXYZ).events =
      s.events ++ [.setMat4 "model"
        (glmTranslate positionXYZ *
          rotationXMatrix (x * Real.pi / 180) *
          rotationYMatrix (y * Real.pi / 180) *
          rotationZMatrix (z * Real.pi / 180) *
          glmScale scaleXYZ)] := by
  have hx : glmRadians x = x * Real.pi / 180 := by unfold glmRadians; ring
  have hy : glmRadians y = y * Real.pi / 180 := by unfold glmRadians; ring
  have hz : glmRadians z = z * Real.pi / 180 := by unfold glmRadians; ring
  simp [SetTransformations, emit, modelMatrix, glmRotate_unitX,
    glmRotate_unitY, glmRotate_unitZ, hx, hy, hz]

/-- C10: `SetShaderColor` always uploads `bUseTexture = false` (0) before the
colour, and `SetShaderTexture` always uploads `bUseTexture = true` (1) and
then the slot index returned by `FindTextureSlot` as the sampler value; hence
after `SetShaderColor` the replayed `bUseTexture` flag is 0 (untextured draw)
and after `SetShaderTexture` it is 1 (textured draw); and for a tag carried
by no occupied registry entry the uploaded slot index is the sentinel `-1`. -/
theorem c10_shader_color_texture_flags (s : SceneState) (r g b a : ℝ)
    (tag : String) :
    ((SetShaderColor s r g b a).events =
      s.events ++ [.setInt "bUseTexture" 0,
        .setVec4 "objectColor" ⟨r, g, b, a⟩]) ∧
    lastUseTexture (SetShaderColor s r g b a).events = some 0 ∧
    ((SetShaderTexture s tag).events =
      s.events ++ [.setInt "bUseTexture" 1,
        .setSampler "objectTexture" (FindTextureSlot s tag)]) ∧
    lastUseTexture (SetShaderTexture s tag).events = some 1 ∧
    ((occupiedTags s).all (fun u => u != tag) = true →
      s.loadedTextures ≤ s.textureIDs.length →
      FindTextureSlot s tag = -1) := by
  refine ⟨?_, ?_, ?_, ?_, ?_⟩
  · simp [SetShaderColor, emit]
  · simp [lastUseTexture, SetShaderColor, emit]
  · simp [SetShaderTexture, emit, FindTextureSlot]
  · simp [lastUseTexture, SetShaderTexture, emit]
  · intro hall hlen
    have hspec := findTextureSlotGo_fst s.textureIDs tag s.loadedTextures 0
      (by omega)
    simp only [List.drop_zero] at hspec
    have hnone : (s.textureIDs.take s.loadedTextures).findIdx?
        (fun e => e.tag == tag) = none := by
      rw [List.findIdx?_eq_none_iff]
      intro e he
      have hmem : e.tag ∈ occupiedTags s :=
        List.mem_map_of_mem TEXTURE_INFO.tag he
      have := List.all_eq_true.mp hall _ hmem
      simpa using this
    show (findTextureSlotGo s.textureIDs tag 0 s.loadedTextures).1 = -1
    rw [hspec, hnone]

/-- Witness for C10 at a concrete input: the demo registry holds no entry
tagged "zzz", so the uploaded sampler slot is `-1`. -/
theorem c10_shader_color_texture_flags_witness :
    (occupiedTags lookupDemoState).all (fun u => u != "zzz") = true ∧
    lookupDemoState.loadedTextures ≤ lookupDemoState.textureIDs.length ∧
    FindTextureSlot lookupDemoState "zzz" = -1 :=
  ⟨by decide, by decide,
    (c10_shader_color_texture_flags lookupDemoState 0 0 0 0 "zzz").2.2.2.2
      (by decide) (by decide)⟩

/-- Behaviour of the `DestroyGLTextures` loop from position `i` for
`remaining` iterations: the loaded count, the registry length and every
slot's tag are preserved; slots outside the visited range are untouched;
each visited in-range slot `j` receives the freshly generated handle
`nextHandle + (j - i)`; the handle counter advances once per iteration. -/
theorem destroyGLTexturesGo_spec :
    ∀ (remaining : Nat) (s : SceneState) (i : Nat),
      (destroyGLTexturesGo s i remaining).loadedTextures =
        s.loadedTextures ∧
      (destroyGLTexturesGo s i remaining).textureIDs.length =
        s.textureIDs.length ∧
      (destroyGLTexturesGo s i remaining).nextHandle =
        s.nextHandle + remaining ∧
      (∀ j, ((destroyGLTexturesGo s i remaining).textureIDs.getD j
          defaultTextureInfo).tag =
        (s.textureIDs.getD j defaultTextureInfo).tag) ∧
      (∀ j, j < i ∨ i + remaining ≤ j →
        (destroyGLTexturesGo s i remaining).textureIDs.getD j
            defaultTextureInfo =
          s.textureIDs.getD j defaultTextureInfo) ∧
      (∀ j, i ≤ j → j < i + remaining → j < s.textureIDs.length →
        ((destroyGLTexturesGo s i remaining).textureIDs.getD j
            defaultTextureInfo).ID =
          s.nextHandle + (j - i)) := by
  intro remaining
  induction remaining with
  | zero =>
    intro s i
    refine ⟨rfl, rfl, rfl, fun j => rfl, fun j _ => rfl, fun j h1 h2 _ => ?_⟩
    omega
  | succ n ih =>
    intro s i
    set s1 : SceneState :=
      { s with
        textureIDs := s.textureIDs.set i
          ⟨(s.textureIDs.getD i defaultTextureInfo).tag, s.nextHandle⟩
        nextHandle := s.nextHandle + 1
        writeLog := s.writeLog ++ [i] } with hs1
    have hgo : destroyGLTexturesGo s i (n + 1) =
        destroyGLTexturesGo s1 (i + 1) n := rfl
    obtain ⟨ihload, ihlen, ihnext, ihtag, ihout, ihin⟩ := ih s1 (i + 1)
    have hlen1 : s1.textureIDs.length = s.textureIDs.length :=
      List.length_set ..
    have hgetD_ne : ∀ j, j ≠ i →
        s1.textureIDs.getD j defaultTextureInfo =
          s.textureIDs.getD j defaultTextureInfo := by
      intro j hj
      simp only [hs1, List.getD_eq_getElem?_getD]
      rw [List.getElem?_set_ne (fun h => hj h.symm)]
    have hgetD_tag : ∀ j,
        (s1.textureIDs.getD j defaultTextureInfo).tag =
          (s.textureIDs.getD j defaultTextureInfo).tag := by
      intro j
      by_cases hj : j = i
      · subst hj
        by_cases hlt : j < s.textureIDs.length
        · simp only [hs1, List.getD_eq_getElem?_getD]
          rw [List.getElem?_set_eq_of_lt _ hlt]
          rfl
        · simp only [hs1]
          rw [List.set_eq_of_length_le (by omega)]
      · exact congrArg TEXTURE_INFO.tag (hgetD_ne j hj)
    rw [hgo]
    refine ⟨ihload, by rw [ihlen, hlen1], ?_,
      fun j => (ihtag j).trans (hgetD_tag j), ?_, ?_⟩
    · rw [ihnext]
      have hnh1 : s1.nextHandle = s.nextHandle + 1 := rfl
      omega
    · intro j hj
      have hj' : j < i + 1 ∨ i + 1 + n ≤ j := by omega
      have hne : j ≠ i := by omega
      exact (ihout j hj').trans (hgetD_ne j hne)
    · intro j hij hjn hjlen
      by_cases hj : j = i
      · subst hj
        have := ihout j (Or.inl (by omega))
        rw [this]
        simp only [hs1, List.getD_eq_getElem?_getD]
        rw [List.getElem?_set_eq_of_lt _ hjlen]
        simp
      · have := ihin j (by omega) (by omega) (by rw [hlen1]; omega)
        rw [this]
        have hnh : s1.nextHandle = s.nextHandle + 1 := rfl
        omega

/-- C5: `DestroyGLTextures` never removes a texture entry: for every state
whose loaded count is within the registry, the loaded-texture count and
every slot's tag are unchanged, slots beyond the loaded prefix are untouched,
and every loaded slot `i` instead receives a freshly generated GPU handle
(`nextHandle + i`, never handed out before) — the routine regenerates
handles rather than freeing or removing entries. -/
theorem c5_destroyGLTextures_regenerates (s : SceneState)
    (h : s.loadedTextures ≤ s.textureIDs.length) :
    (DestroyGLTextures s).loadedTextures = s.loadedTextures ∧
    (∀ j, ((DestroyGLTextures s).textureIDs.getD j defaultTextureInfo).tag =
      (s.textureIDs.getD j defaultTextureInfo).tag) ∧
    occupiedTags (DestroyGLTextures s) = occupiedTags s ∧
    (∀ j, s.loadedTextures ≤ j →
      (DestroyGLTextures s).textureIDs.getD j defaultTextureInfo =
        s.textureIDs.getD j defaultTextureInfo) ∧
    (∀ j, j < s.loadedTextures →
      ((DestroyGLTextures s).textureIDs.getD j defaultTextureInfo).ID =
        s.nextHandle + j) ∧
    (DestroyGLTextures s).nextHandle = s.nextHandle + s.loadedTextures := by
  obtain ⟨hload, hlen, hnext, htag, hout, hin⟩ :=
    destroyGLTexturesGo_spec s.loadedTextures s 0
  have hDestroy : DestroyGLTextures s = destroyGLTexturesGo s 0
      s.loadedTextures := rfl
  rw [hDestroy]
  refine ⟨hload, htag, ?_, fun j hj => hout j (by omega), ?_, hnext⟩
  · have hlen' : (destroyGLTexturesGo s 0 s.loadedTextures).textureIDs.length =
      s.textureIDs.length := hlen
    apply List.ext_getElem
    · simp [occupiedTags, occupiedEntries, hload, hlen']
    · intro n h1 h2
      simp only [occupiedTags, occupiedEntries] at h1 h2 ⊢
      have hn : n < s.loadedTextures := by
        simp only [List.length_map, List.length_take] at h1
        omega
      have hnlen : n < s.textureIDs.length := by omega
      have := htag n
      simp only [List.getD_eq_getElem?_getD] at this
      rw [List.getElem?_eq_getElem (by rw [hlen']; omega),
        List.getElem?_eq_getElem hnlen] at this
      simp only [List.getElem_map, List.getElem_take]
      simpa using this
  · intro j hj
    exact hin j (by omega) (by omega) (by omega)

/-- Witness for C5 at a concrete input: destroying the demo registry keeps
all three entries and their tags, and rewrites their handles with fresh
ones. -/
theorem c5_destroyGLTextures_regenerates_witness :
    lookupDemoState.loadedTextures ≤ lookupDemoState.textureIDs.length ∧
    ((DestroyGLTextures lookupDemoState).loadedTextures =
        lookupDemoState.loadedTextures ∧
      (∀ j, ((DestroyGLTextures lookupDemoState).textureIDs.getD j
          defaultTextureInfo).tag =
        (lookupDemoState.textureIDs.getD j defaultTextureInfo).tag) ∧
      occupiedTags (DestroyGLTextures lookupDemoState) =
        occupiedTags lookupDemoState ∧
      (∀ j, lookupDemoState.loadedTextures ≤ j →
        (DestroyGLTextures lookupDemoState).textureIDs.getD j
            defaultTextureInfo =
          lookupDemoState.textureIDs.getD j defaultTextureInfo) ∧
      (∀ j, j < lookupDemoState.loadedTextures →
        ((DestroyGLTextures lookupDemoState).textureIDs.getD j
            defaultTextureInfo).ID =
          lookupDemoState.nextHandle + j) ∧
      (DestroyGLTextures lookupDemoState).nextHandle =
        lookupDemoState.nextHandle + lookupDemoState.loadedTextures) :=
  ⟨by decide, c5_destroyGLTextures_regenerates lookupDemoState (by decide)⟩

/-- Setting the slot just past a prefix and then taking one more element
appends exactly the written entry to the prefix. -/
theorem take_set_append {α : Type} (l : List α) (n : Nat) (a : α)
    (h : n < l.length) :
    (l.set n a).take (n + 1) = l.take n ++ [a] := by
  induction l generalizing n with
  | nil => simp at h
  | cons x xs ih =>
    cases n with
    | zero => simp
    | succ m =>
      simp only [List.set_cons_succ, List.take_succ_cons, List.cons_append,
        List.cons.injEq, true_and]
      exact ih m (by simpa using h)

/-- C6: `CreateGLTexture` returns `true` exactly when the image decodes with
3 or 4 colour channels; in that case it appends one entry `{tag, fresh
handle}` to the occupied registry prefix and increments the count by one; in
every failure case it leaves the count and the whole registry unchanged and
appends to the log. -/
theorem c6_createGLTexture_contract (images : String → Option ImageData)
    (s : SceneState) (filename tag : String)
    (h : s.loadedTextures < s.textureIDs.length) :
    ((CreateGLTexture images s filename tag).1 = true ↔
      ∃ img, images filename = some img ∧
        (img.colorChannels = 3 ∨ img.colorChannels = 4)) ∧
    ((CreateGLTexture images s filename tag).1 = true →
      occupiedEntries (CreateGLTexture images s filename tag).2 =
        occupiedEntries s ++ [⟨tag, s.nextHandle⟩] ∧
      (CreateGLTexture images s filename tag).2.loadedTextures =
        s.loadedTextures + 1) ∧
    ((CreateGLTexture images s filename tag).1 = false →
      (CreateGLTexture images s filename tag).2.loadedTextures =
        s.loadedTextures ∧
      (CreateGLTexture images s filename tag).2.textureIDs = s.textureIDs ∧
      s.log.length < (CreateGLTexture images s filename tag).2.log.length) := by
  cases himg : images filename with
  | none =>
    refine ⟨?_, ?_, ?_⟩ <;> simp [CreateGLTexture, himg, logLine]
  | some img =>
    by_cases hch : img.colorChannels = 3 ∨ img.colorChannels = 4
    · refine ⟨?_, fun _ => ⟨?_, ?_⟩, ?_⟩
      · exact iff_of_true (by simp [CreateGLTexture, himg, hch])
          ⟨img, rfl, hch⟩
      · simp only [CreateGLTexture, himg, if_pos hch, occupiedEntries,
          logLine]
        exact take_set_append s.textureIDs s.loadedTextures _ h
      · simp [CreateGLTexture, himg, hch, logLine]
      · intro hfalse
        simp [CreateGLTexture, himg, hch] at hfalse
    · refine ⟨?_, ?_, ?_⟩
      · simp only [CreateGLTexture, himg, if_neg hch]
        refine iff_of_false (by simp) ?_
        rintro ⟨img', himg', hch'⟩
        obtain rfl : img = img' := by injection himg'
        exact hch hch'
      · intro htrue
        simp [CreateGLTexture, himg, hch] at htrue
      · intro _
        refine ⟨?_, ?_, ?_⟩ <;> simp [CreateGLTexture, himg, hch, logLine]

/-- Witness for C6 at concrete inputs: loading a 3-channel image into the
demo registry succeeds and appends one entry; a 2-channel image fails and
changes nothing. -/
theorem c6_createGLTexture_contract_witness :
    lookupDemoState.loadedTextures < lookupDemoState.textureIDs.length ∧
    ((CreateGLTexture allImagesLoad lookupDemoState "textures/x.jpg"
        "x").1 = true ↔
      ∃ img, allImagesLoad "textures/x.jpg" = some img ∧
        (img.colorChannels = 3 ∨ img.colorChannels = 4)) :=
  ⟨by decide,
    (c6_createGLTexture_contract allImagesLoad lookupDemoState
      "textures/x.jpg" "x" (by decide)).1⟩

/-- One `CreateGLTexture` call, seen abstractly: it emits no shader events,
leaves `readLog` and the materials untouched, appends at most the written
index `m_loadedTextures` to `writeLog`, grows the count by at most one,
preserves the registry length, and extends the occupied tags by at most the
new tag at the end. -/
theorem createGLTexture_step (images : String → Option ImageData)
    (s : SceneState) (filename tag : String)
    (h : s.loadedTextures < s.textureIDs.length) :
    (CreateGLTexture images s filename tag).2.events = s.events ∧
    (CreateGLTexture images s filename tag).2.readLog = s.readLog ∧
    (CreateGLTexture images s filename tag).2.objectMaterials =
      s.objectMaterials ∧
    ((CreateGLTexture images s filename tag).2.writeLog = s.writeLog ∨
      (CreateGLTexture images s filename tag).2.writeLog =
        s.writeLog ++ [s.loadedTextures]) ∧
    (CreateGLTexture images s filename tag).2.loadedTextures ≤
      s.loadedTextures + 1 ∧
    (CreateGLTexture images s filename tag).2.textureIDs.length =
      s.textureIDs.length ∧
    List.Sublist (occupiedTags (CreateGLTexture images s filename tag).2)
      (occupiedTags s ++ [tag]) := by
  cases himg : images filename with
  | none =>
    refine ⟨?_, ?_, ?_, ?_, ?_, ?_, ?_⟩
    all_goals simp only [CreateGLTexture, himg, logLine]
    all_goals
      first
      | trivial
      | exact Or.inl trivial
      | exact Nat.le_succ _
      | exact List.sublist_append_left _ _
  | some img =>
    by_cases hch : img.colorChannels = 3 ∨ img.colorChannels = 4
    · have hsub : List.Sublist
          (occupiedTags (CreateGLTexture images s filename tag).2)
          (occupiedTags s ++ [tag]) := by
        simp only [CreateGLTexture, himg, if_pos hch, logLine,
          occupiedTags, occupiedEntries]
        rw [take_set_append s.textureIDs s.loadedTextures _ h,
          List.map_append]
        exact List.Sublist.refl _
      refine ⟨?_, ?_, ?_, ?_, ?_, ?_, hsub⟩
      all_goals simp only [CreateGLTexture, himg, if_pos hch, logLine]
      all_goals
        first
        | trivial
        | exact Or.inr trivial
        | exact Nat.le_refl _
        | exact List.length_set ..
    · refine ⟨?_, ?_, ?_, ?_, ?_, ?_, ?_⟩
      all_goals simp only [CreateGLTexture, himg, if_neg hch, logLine]
      all_goals
        first
        | trivial
        | exact Or.inl trivial
        | exact Nat.le_succ _
        | exact List.sublist_append_left _ _

/-- `CreateGLTexture` under a bound `k < 16` on the count: transfers the
count bound, the write-index bound and the occupied-tag sublist across one
call of the texture-loading sequence. -/
theorem createGLTexture_inv (images : String → Option ImageData)
    (s : SceneState) (filename tag : String) (k : Nat) (tags : List String)
    (hlen : s.textureIDs.length = 16) (hcount : s.loadedTextures ≤ k)
    (hk : k < 16) (hw : ∀ j ∈ s.writeLog, j < k)
    (ht : List.Sublist (occupiedTags s) tags) :
    (CreateGLTexture images s filename tag).2.textureIDs.length = 16 ∧
    (CreateGLTexture images s filename tag).2.loadedTextures ≤ k + 1 ∧
    (∀ j ∈ (CreateGLTexture images s filename tag).2.writeLog, j < k + 1) ∧
    List.Sublist (occupiedTags (CreateGLTexture images s filename tag).2)
      (tags ++ [tag]) ∧
    (CreateGLTexture images s filename tag).2.events = s.events ∧
    (CreateGLTexture images s filename tag).2.readLog = s.readLog ∧
    (CreateGLTexture images s filename tag).2.objectMaterials =
      s.objectMaterials := by
  obtain ⟨he, hr, hm, hwl, hc, hl, hsub⟩ :=
    createGLTexture_step images s filename tag (by omega)
  refine ⟨by rw [hl, hlen], by omega, ?_, ?_, he, hr, hm⟩
  · intro j hj
    cases hwl with
    | inl heq =>
      rw [heq] at hj
      exact Nat.lt_succ_of_lt (hw j hj)
    | inr heq =>
      rw [heq] at hj
      rcases List.mem_append.mp hj with hj' | hj'
      · exact Nat.lt_succ_of_lt (hw j hj')
      · have : j = s.loadedTextures := by simpa using hj'
        omega
  · exact hsub.trans (List.Sublist.append ht (List.Sublist.refl _))

/-- The `BindGLTextures` loop, seen abstractly: it leaves the registry, the
materials, the write log and the mesh/draw/model observables unchanged, and
only appends indices below `i + remaining` to `readLog`. -/
theorem bindGLTexturesGo_step :
    ∀ (remaining : Nat) (s : SceneState) (i : Nat),
      (bindGLTexturesGo s i remaining).loadedTextures = s.loadedTextures ∧
      (bindGLTexturesGo s i remaining).textureIDs = s.textureIDs ∧
      (bindGLTexturesGo s i remaining).objectMaterials =
        s.objectMaterials ∧
      (bindGLTexturesGo s i remaining).writeLog = s.writeLog ∧
      (∀ j ∈ (bindGLTexturesGo s i remaining).readLog,
        j ∈ s.readLog ∨ j < i + remaining) ∧
      meshLoads (bindGLTexturesGo s i remaining).events =
        meshLoads s.events ∧
      drawCalls (bindGLTexturesGo s i remaining).events =
        drawCalls s.events := by
  intro remaining
  induction remaining with
  | zero =>
    intro s i
    exact ⟨rfl, rfl, rfl, rfl, fun j hj => Or.inl hj, rfl, rfl⟩
  | succ n ih =>
    intro s i
    obtain ⟨h1, h2, h3, h4, h5, h6, h7⟩ := ih
      { s with
        readLog := s.readLog ++ [i]
        events := s.events ++ [.activeTexture i] ++
          [.bindTexture (s.textureIDs.getD i defaultTextureInfo).ID] }
      (i + 1)
    have hgo : bindGLTexturesGo s i (n + 1) =
        bindGLTexturesGo
          { s with
            readLog := s.readLog ++ [i]
            events := s.events ++ [.activeTexture i] ++
              [.bindTexture (s.textureIDs.getD i defaultTextureInfo).ID] }
          (i + 1) n := rfl
    rw [hgo]
    refine ⟨h1, h2, h3, h4, ?_, ?_, ?_⟩
    · intro j hj
      rcases h5 j hj with hj' | hj'
      · rcases List.mem_append.mp hj' with hj'' | hj''
        · exact Or.inl hj''
        · right
          have : j = i := by simpa using hj''
          omega
      · right
        omega
    · rw [h6]
      simp [meshLoads]
    · rw [h7]
      simp [drawCalls]

/-- The indices inspected by the `FindTextureSlot` loop are all below
`index + remaining` (in particular below the loaded count when started at
index 0). -/
theorem findTextureSlotGo_indices (arr : List TEXTURE_INFO) (tag : String) :
    ∀ (remaining index : Nat),
      ∀ j ∈ (findTextureSlotGo arr tag index remaining).2,
        j < index + remaining := by
  intro remaining
  induction remaining with
  | zero =>
    intro index j hj
    simp [findTextureSlotGo] at hj
  | succ n ih =>
    intro index j hj
    simp only [findTextureSlotGo] at hj
    by_cases htag : (arr.getD index defaultTextureInfo).tag = tag
    · rw [if_pos htag] at hj
      have : j = index := by simpa using hj
      omega
    · rw [if_neg htag] at hj
      rcases List.mem_cons.mp hj with hj' | hj'
      · omega
      · have := ih (index + 1) j hj'
        omega

/-- The eight (filename, tag) pairs loaded by `LoadSceneTextures`, in call
order. -/
def sceneTextureFiles : List (String × String) :=
  [("textures/wood.jpg", "wood"), ("textures/wall.jpg", "wall"),
   ("textures/pot.jpg", "pot"), ("textures/leaf.jpg", "leaf"),
   ("textures/lamp.jpg", "lamp"), ("textures/marble.jpg", "marble"),
   ("textures/granite.jpg", "granite"), ("textures/gold.jpg", "gold")]

/-- Folding `CreateGLTexture` over a pair list transfers the registry
invariants: length stays 16, the count grows by at most one per call, write
indices stay below the final count bound, occupied tags extend by at most
the processed tags in order, and events/readLog/materials are untouched. -/
theorem createGLTexture_fold_inv (images : String → Option ImageData) :
    ∀ (ps : List (String × String)) (s : SceneState) (k : Nat)
      (tags : List String),
      s.textureIDs.length = 16 → s.loadedTextures ≤ k →
      k + ps.length ≤ 16 →
      (∀ j ∈ s.writeLog, j < k) →
      List.Sublist (occupiedTags s) tags →
      (ps.foldl (fun t p => (CreateGLTexture images t p.1 p.2).2)
          s).textureIDs.length = 16 ∧
      (ps.foldl (fun t p => (CreateGLTexture images t p.1 p.2).2)
          s).loadedTextures ≤ k + ps.length ∧
      (∀ j ∈ (ps.foldl (fun t p => (CreateGLTexture images t p.1 p.2).2)
          s).writeLog, j < k + ps.length) ∧
      List.Sublist
        (occupiedTags (ps.foldl
          (fun t p => (CreateGLTexture images t p.1 p.2).2) s))
        (tags ++ ps.map Prod.snd) ∧
      (ps.foldl (fun t p => (CreateGLTexture images t p.1 p.2).2)
          s).events = s.events ∧
      (ps.foldl (fun t p => (CreateGLTexture images t p.1 p.2).2)
          s).readLog = s.readLog ∧
      (ps.foldl (fun t p => (CreateGLTexture images t p.1 p.2).2)
          s).objectMaterials = s.objectMaterials := by
  intro ps
  induction ps with
  | nil =>
    intro s k tags hlen hcount _ hw ht
    refine ⟨hlen, by simpa using hcount, ?_, by simpa using ht, rfl, rfl, rfl⟩
    intro j hj
    have := hw j hj
    omega
  | cons p rest ih =>
    intro s k tags hlen hcount hcap hw ht
    obtain ⟨L1, C1, W1, T1, E1, R1, M1⟩ :=
      createGLTexture_inv images s p.1 p.2 k tags hlen hcount
        (by simp at hcap; omega) hw ht
    obtain ⟨L2, C2, W2, T2, E2, R2, M2⟩ :=
      ih ((CreateGLTexture images s p.1 p.2).2) (k + 1) (tags ++ [p.2])
        L1 C1 (by simp at hcap ⊢; omega) W1 T1
    have hfold : (p :: rest).foldl
        (fun t q => (CreateGLTexture images t q.1 q.2).2) s =
      rest.foldl (fun t q => (CreateGLTexture images t q.1 q.2).2)
        ((CreateGLTexture images s p.1 p.2).2) := rfl
    rw [hfold]
    refine ⟨L2, ?_, ?_, ?_,
      E2.trans E1, R2.trans R1, M2.trans M1⟩
    · have := C2
      simp only [List.length_cons]
      omega
    · intro j hj
      have := W2 j hj
      simp only [List.length_cons]
      omega
    · have := T2
      simpa [List.append_assoc] using this

/-- `LoadSceneTextures` is the `CreateGLTexture` fold over the eight scene
files followed by `BindGLTextures`. -/
theorem loadSceneTextures_eq_fold (images : String → Option ImageData)
    (s : SceneState) :
    LoadSceneTextures images s =
      BindGLTextures (sceneTextureFiles.foldl
        (fun t p => (CreateGLTexture images t p.1 p.2).2) s) := rfl

/-- `LoadSceneTextures` on a fresh manager, for every image oracle: at most
eight registered textures, 16 registry slots, occupied tags a subsequence of
the eight scene tags in order, all write and read indices below 8, no mesh
or draw events, no materials. -/
theorem loadSceneTextures_spec (images : String → Option ImageData) :
    (LoadSceneTextures images initialState).loadedTextures ≤ 8 ∧
    (LoadSceneTextures images initialState).textureIDs.length = 16 ∧
    List.Sublist (occupiedTags (LoadSceneTextures images initialState))
      ["wood", "wall", "pot", "leaf", "lamp", "marble", "granite",
        "gold"] ∧
    (∀ j ∈ (LoadSceneTextures images initialState).writeLog, j < 8) ∧
    (∀ j ∈ (LoadSceneTextures images initialState).readLog, j < 8) ∧
    meshLoads (LoadSceneTextures images initialState).events = [] ∧
    drawCalls (LoadSceneTextures images initialState).events = [] ∧
    (LoadSceneTextures images initialState).objectMaterials = [] := by
  obtain ⟨L, C, W, T, E, R, M⟩ :=
    createGLTexture_fold_inv images sceneTextureFiles initialState 0 []
      (by decide) (by decide) (by decide)
      (by intro j hj; simp [initialState] at hj)
      (by simp [occupiedTags, occupiedEntries, initialState])
  obtain ⟨B1, B2, B3, B4, B5, B6, B7⟩ :=
    bindGLTexturesGo_step
      (sceneTextureFiles.foldl
        (fun t p => (CreateGLTexture images t p.1 p.2).2)
        initialState).loadedTextures
      (sceneTextureFiles.foldl
        (fun t p => (CreateGLTexture images t p.1 p.2).2) initialState) 0
  rw [loadSceneTextures_eq_fold]
  have hcount8 : (sceneTextureFiles.foldl
      (fun t p => (CreateGLTexture images t p.1 p.2).2)
      initialState).loadedTextures ≤ 8 := by
    simpa [sceneTextureFiles] using C
  refine ⟨?_, ?_, ?_, ?_, ?_, ?_, ?_, ?_⟩
  · rw [show (BindGLTextures _).loadedTextures = _ from B1]
    exact hcount8
  · rw [show (BindGLTextures _).textureIDs = _ from B2]
    exact L
  · have : occupiedTags (BindGLTextures (sceneTextureFiles.foldl
        (fun t p => (CreateGLTexture images t p.1 p.2).2) initialState)) =
      occupiedTags (sceneTextureFiles.foldl
        (fun t p => (CreateGLTexture images t p.1 p.2).2) initialState) := by
      unfold occupiedTags occupiedEntries
      rw [show (BindGLTextures _).textureIDs = _ from B2,
        show (BindGLTextures _).loadedTextures = _ from B1]
    rw [this]
    simpa using T
  · intro j hj
    rw [show (BindGLTextures _).writeLog = _ from B4] at hj
    have := W j hj
    simp [sceneTextureFiles] at this
    omega
  · intro j hj
    rcases B5 j hj with hj' | hj'
    · rw [R] at hj'
      simp [initialState] at hj'
    · omega
  · rw [show meshLoads (BindGLTextures _).events = _ from B6, E]
    rfl
  · rw [show drawCalls (BindGLTextures _).events = _ from B7, E]
    rfl
  · rw [show (BindGLTextures _).objectMaterials = _ from B3, M]
    rfl

/-- `emit` changes only the event log. -/
theorem emit_loadedTextures (s : SceneState) (e : Event) :
    (emit s e).loadedTextures = s.loadedTextures := rfl

/-- `emit` leaves the registry list unchanged. -/
theorem emit_textureIDs (s : SceneState) (e : Event) :
    (emit s e).textureIDs = s.textureIDs := rfl

/-- `emit` leaves the write log unchanged. -/
theorem emit_writeLog (s : SceneState) (e : Event) :
    (emit s e).writeLog = s.writeLog := rfl

/-- `emit` leaves the read log unchanged. -/
theorem emit_readLog (s : SceneState) (e : Event) :
    (emit s e).readLog = s.readLog := rfl

/-- `SetShaderMaterial` only uploads uniforms: loaded count unchanged. -/
theorem setShaderMaterial_loadedTextures (s : SceneState) (t : String) :
    (SetShaderMaterial s t).loadedTextures = s.loadedTextures := by
  unfold SetShaderMaterial
  split
  · dsimp only
    split <;> rfl
  · rfl

/-- `SetShaderMaterial` only uploads uniforms: registry unchanged. -/
theorem setShaderMaterial_textureIDs (s : SceneState) (t : String) :
    (SetShaderMaterial s t).textureIDs = s.textureIDs := by
  unfold SetShaderMaterial
  split
  · dsimp only
    split <;> rfl
  · rfl

/-- `SetShaderMaterial` only uploads uniforms: write log unchanged. -/
theorem setShaderMaterial_writeLog (s : SceneState) (t : String) :
    (SetShaderMaterial s t).writeLog = s.writeLog := by
  unfold SetShaderMaterial
  split
  · dsimp only
    split <;> rfl
  · rfl

/-- `SetShaderMaterial` only uploads uniforms: read log unchanged. -/
theorem setShaderMaterial_readLog (s : SceneState) (t : String) :
    (SetShaderMaterial s t).readLog = s.readLog := by
  unfold SetShaderMaterial
  split
  · dsimp only
    split <;> rfl
  · rfl

/-- `SetShaderTexture` leaves the loaded count unchanged. -/
theorem setShaderTexture_loadedTextures (s : SceneState) (tag : String) :
    (SetShaderTexture s tag).loadedTextures = s.loadedTextures := rfl

/-- `SetShaderTexture` leaves the registry unchanged. -/
theorem setShaderTexture_textureIDs (s : SceneState) (tag : String) :
    (SetShaderTexture s tag).textureIDs = s.textureIDs := rfl

/-- `SetShaderTexture` leaves the write log unchanged. -/
theorem setShaderTexture_writeLog (s : SceneState) (tag : String) :
    (SetShaderTexture s tag).writeLog = s.writeLog := rfl

/-- `SetShaderTexture` appends exactly the indices inspected by the
`FindTextureSlot` scan to the read log. -/
theorem setShaderTexture_readLog (s : SceneState) (tag : String) :
    (SetShaderTexture s tag).readLog =
      s.readLog ++
        (findTextureSlotGo s.textureIDs tag 0 s.loadedTextures).2 := rfl

/-- The leaf loop only emits transform and draw events. -/
theorem renderLeafLoopGo_proj :
    ∀ (remaining : Nat) (s : SceneState) (i : Nat),
      (renderLeafLoopGo s i remaining).loadedTextures = s.loadedTextures ∧
      (renderLeafLoopGo s i remaining).textureIDs = s.textureIDs ∧
      (renderLeafLoopGo s i remaining).writeLog = s.writeLog ∧
      (renderLeafLoopGo s i remaining).readLog = s.readLog := by
  intro remaining
  induction remaining with
  | zero => exact fun s i => ⟨rfl, rfl, rfl, rfl⟩
  | succ n ih =>
    intro s i
    exact ⟨(ih _ (i + 1)).1, (ih _ (i + 1)).2.1, (ih _ (i + 1)).2.2.1,
      (ih _ (i + 1)).2.2.2⟩

/-- Loaded count through the leaf loop (projection form for `simp`). -/
theorem renderLeafLoopGo_loadedTextures (s : SceneState) (i r : Nat) :
    (renderLeafLoopGo s i r).loadedTextures = s.loadedTextures :=
  (renderLeafLoopGo_proj r s i).1

/-- Registry through the leaf loop (projection form for `simp`). -/
theorem renderLeafLoopGo_textureIDs (s : SceneState) (i r : Nat) :
    (renderLeafLoopGo s i r).textureIDs = s.textureIDs :=
  (renderLeafLoopGo_proj r s i).2.1

/-- Write log through the leaf loop (projection form for `simp`). -/
theorem renderLeafLoopGo_writeLog (s : SceneState) (i r : Nat) :
    (renderLeafLoopGo s i r).writeLog = s.writeLog :=
  (renderLeafLoopGo_proj r s i).2.2.1

/-- Read log through the leaf loop (projection form for `simp`). -/
theorem renderLeafLoopGo_readLog (s : SceneState) (i r : Nat) :
    (renderLeafLoopGo s i r).readLog = s.readLog :=
  (renderLeafLoopGo_proj r s i).2.2.2

/-- `RenderScene` never touches the texture registry or the write log, and
extends the read log only with the indices inspected by its three
`SetShaderTexture` lookups (tags "wall", "wood", "leaf"). -/
theorem renderScene_proj (s : SceneState) :
    (RenderScene s).loadedTextures = s.loadedTextures ∧
    (RenderScene s).textureIDs = s.textureIDs ∧
    (RenderScene s).writeLog = s.writeLog ∧
    (RenderScene s).readLog =
      s.readLog ++
        (findTextureSlotGo s.textureIDs "wall" 0 s.loadedTextures).2 ++
        (findTextureSlotGo s.textureIDs "wood" 0 s.loadedTextures).2 ++
        (findTextureSlotGo s.textureIDs "leaf" 0 s.loadedTextures).2 := by
  refine ⟨?_, ?_, ?_, ?_⟩ <;>
    simp only [RenderScene, SetupSceneLights, SetTransformations,
      SetShaderColor, SetTextureUVScale,
      renderLeafLoopGo_loadedTextures, renderLeafLoopGo_textureIDs,
      renderLeafLoopGo_writeLog, renderLeafLoopGo_readLog,
      setShaderTexture_loadedTextures, setShaderTexture_textureIDs,
      setShaderTexture_writeLog, setShaderTexture_readLog,
      setShaderMaterial_loadedTextures, setShaderMaterial_textureIDs,
      setShaderMaterial_writeLog, setShaderMaterial_readLog,
      emit_loadedTextures, emit_textureIDs, emit_writeLog, emit_readLog,
      List.append_assoc]

/-- `LoadSceneMaterials` touches only the material list: count unchanged. -/
theorem loadSceneMaterials_loadedTextures (s : SceneState) :
    (LoadSceneMaterials s).loadedTextures = s.loadedTextures := rfl

/-- `LoadSceneMaterials` touches only the material list: registry unchanged. -/
theorem loadSceneMaterials_textureIDs (s : SceneState) :
    (LoadSceneMaterials s).textureIDs = s.textureIDs := rfl

/-- `LoadSceneMaterials` touches only the material list: write log unchanged. -/
theorem loadSceneMaterials_writeLog (s : SceneState) :
    (LoadSceneMaterials s).writeLog = s.writeLog := rfl

/-- `LoadSceneMaterials` touches only the material list: read log unchanged. -/
theorem loadSceneMaterials_readLog (s : SceneState) :
    (LoadSceneMaterials s).readLog = s.readLog := rfl

/-- `PrepareScene` past the texture stage: loaded count unchanged. -/
theorem prepareScene_loadedTextures (images : String → Option ImageData)
    (s : SceneState) :
    (PrepareScene images s).loadedTextures =
      (LoadSceneTextures images s).loadedTextures := by
  simp only [PrepareScene, emit_loadedTextures,
    loadSceneMaterials_loadedTextures]

/-- `PrepareScene` past the texture stage: registry unchanged. -/
theorem prepareScene_textureIDs (images : String → Option ImageData)
    (s : SceneState) :
    (PrepareScene images s).textureIDs =
      (LoadSceneTextures images s).textureIDs := by
  simp only [PrepareScene, emit_textureIDs, loadSceneMaterials_textureIDs]

/-- `PrepareScene` past the texture stage: write log unchanged. -/
theorem prepareScene_writeLog (images : String → Option ImageData)
    (s : SceneState) :
    (PrepareScene images s).writeLog =
      (LoadSceneTextures images s).writeLog := by
  simp only [PrepareScene, emit_writeLog, loadSceneMaterials_writeLog]

/-- `PrepareScene` past the texture stage: read log unchanged. -/
theorem prepareScene_readLog (images : String → Option ImageData)
    (s : SceneState) :
    (PrepareScene images s).readLog =
      (LoadSceneTextures images s).readLog := by
  simp only [PrepareScene, emit_readLog, loadSceneMaterials_readLog]

/-- C8: texture tags are unique in every state reachable by the fixed scene
script: whatever the image-load outcomes, after `LoadSceneTextures` (and
still after the whole prepare/render frame, which never modifies the
registry) no two occupied registry entries carry the same tag. -/
theorem c8_texture_tags_unique (images : String → Option ImageData) :
    (occupiedTags (LoadSceneTextures images initialState)).Nodup ∧
    (occupiedTags (RenderScene (PrepareScene images initialState))).Nodup
    := by
  obtain ⟨C, L, T, W, R, Me, D, M⟩ := loadSceneTextures_spec images
  have nodup8 : (["wood", "wall", "pot", "leaf", "lamp", "marble",
      "granite", "gold"] : List String).Nodup := by decide
  have h1 : (occupiedTags (LoadSceneTextures images initialState)).Nodup :=
    List.Nodup.sublist T nodup8
  refine ⟨h1, ?_⟩
  have hprep_tex := prepareScene_textureIDs images initialState
  have hprep_cnt := prepareScene_loadedTextures images initialState
  obtain ⟨p1, p2, _, _⟩ := renderScene_proj (PrepareScene images initialState)
  have heq : occupiedTags (RenderScene (PrepareScene images initialState)) =
      occupiedTags (LoadSceneTextures images initialState) := by
    unfold occupiedTags occupiedEntries
    rw [p1, p2, hprep_tex, hprep_cnt]
  rw [heq]
  exact h1

/-- C9: under the fixed scene (any image-load outcomes), the loaded-texture
count never exceeds 8 — `LoadSceneTextures` performs exactly eight load
calls and nothing else ever registers a texture — and every registry array
index the run ever writes (`CreateGLTexture`, which writes at the current
count without a bound check) or reads (`BindGLTextures`, `FindTextureSlot`)
is strictly below the 16-entry capacity. -/
theorem c9_fixed_scene_registry_in_bounds
    (images : String → Option ImageData) :
    (RenderScene (PrepareScene images initialState)).loadedTextures ≤ 8 ∧
    ((RenderScene (PrepareScene images initialState)).writeLog.all
      (fun j => j < 16)) = true ∧
    ((RenderScene (PrepareScene images initialState)).readLog.all
      (fun j => j < 16)) = true := by
  obtain ⟨C, L, T, W, R, Me, D, M⟩ := loadSceneTextures_spec images
  have hprep_cnt := prepareScene_loadedTextures images initialState
  have hprep_w := prepareScene_writeLog images initialState
  have hprep_r := prepareScene_readLog images initialState
  obtain ⟨p1, p2, p3, p4⟩ :=
    renderScene_proj (PrepareScene images initialState)
  refine ⟨?_, ?_, ?_⟩
  · rw [p1, hprep_cnt]
    exact C
  · rw [List.all_eq_true]
    intro j hj
    rw [p3, hprep_w] at hj
    have := W j hj
    simp only [decide_eq_true_eq]
    omega
  · rw [List.all_eq_true]
    intro j hj
    simp only [decide_eq_true_eq]
    rw [p4] at hj
    rcases List.mem_append.mp hj with hj3 | hleaf
    · rcases List.mem_append.mp hj3 with hj2 | hwood
      · rcases List.mem_append.mp hj2 with hprep | hwall
        · rw [hprep_r] at hprep
          have := R j hprep
          omega
        · have := findTextureSlotGo_indices _ "wall" _ 0 j hwall
          rw [hprep_cnt] at this
          omega
      · have := findTextureSlotGo_indices _ "wood" _ 0 j hwood
        rw [hprep_cnt] at this
        omega
    · have := findTextureSlotGo_indices _ "leaf" _ 0 j hleaf
      rw [hprep_cnt] at this
      omega

/-- `emit` leaves the material list unchanged. -/
theorem emit_objectMaterials (s : SceneState) (e : Event) :
    (emit s e).objectMaterials = s.objectMaterials := rfl

/-- `LoadSceneMaterials` emits no shader events. -/
theorem loadSceneMaterials_events (s : SceneState) :
    (LoadSceneMaterials s).events = s.events := rfl

/-- `meshLoads` distributes over append. -/
theorem meshLoads_append (l1 l2 : List Event) :
    meshLoads (l1 ++ l2) = meshLoads l1 ++ meshLoads l2 := by
  simp [meshLoads, List.filterMap_append]

/-- `drawCalls` distributes over append. -/
theorem drawCalls_append (l1 l2 : List Event) :
    drawCalls (l1 ++ l2) = drawCalls l1 ++ drawCalls l2 := by
  simp [drawCalls, List.filterMap_append]

/-- C7: `PrepareScene` performs its load phase in the fixed order — first
the scene textures, then the scene materials (which upload nothing to the
shader), then the nine primitive meshes, each loaded exactly once, in the
order plane, box, cone, prism, pyramid, sphere, torus, tapered cylinder,
cylinder — and issues no draw call. -/
theorem c7_prepareScene_order (images : String → Option ImageData) :
    (PrepareScene images initialState).events =
      (LoadSceneTextures images initialState).events ++
        [.loadMesh .plane, .loadMesh .box, .loadMesh .cone,
         .loadMesh .prism, .loadMesh .pyramid3, .loadMesh .sphere,
         .loadMesh .torus, .loadMesh .taperedCylinder,
         .loadMesh .cylinder] ∧
    meshLoads (LoadSceneTextures images initialState).events = [] ∧
    meshLoads (PrepareScene images initialState).events =
      [ShapeKind.plane, .box, .cone, .prism, .pyramid3, .sphere, .torus,
       .taperedCylinder, .cylinder] ∧
    ([ShapeKind.plane, .box, .cone, .prism, .pyramid3, .sphere, .torus,
      .taperedCylinder, .cylinder]).Nodup ∧
    drawCalls (PrepareScene images initialState).events = [] ∧
    (PrepareScene images initialState).objectMaterials = sceneMaterials := by
  obtain ⟨C, L, T, W, R, Me, D, M⟩ := loadSceneTextures_spec images
  have h1 : (PrepareScene images initialState).events =
      (LoadSceneTextures images initialState).events ++
        [.loadMesh .plane, .loadMesh .box, .loadMesh .cone,
         .loadMesh .prism, .loadMesh .pyramid3, .loadMesh .sphere,
         .loadMesh .torus, .loadMesh .taperedCylinder,
         .loadMesh .cylinder] := by
    simp [PrepareScene, emit, loadSceneMaterials_events]
  refine ⟨h1, Me, ?_, by decide, ?_, ?_⟩
  · rw [h1, meshLoads_append, Me]
    rfl
  · rw [h1, drawCalls_append, D]
    rfl
  · have h2 : (PrepareScene images initialState).objectMaterials =
        (LoadSceneMaterials (LoadSceneTextures images
          initialState)).objectMaterials := by
      simp only [PrepareScene, emit_objectMaterials]
    rw [h2]
    show (LoadSceneTextures images initialState).objectMaterials ++ _ =
      sceneMaterials
    rw [M]
    rfl

set_option maxHeartbeats 1000000 in
set_option maxRecDepth 4000 in
/-- C4: in the fixed scene (all images loading), `RenderScene` first uploads
the scene lights before anything else, then issues exactly 21 draw calls in
the fixed order wall plane, desk plane, lamp base cylinder, lamp neck
cylinder, lamp shade tapered cylinder, lamp bulb sphere, lamp joint
cylinder, clock body cylinder, clock face cylinder, pot sphere, then ten
leaf tapered cylinders; each draw is immediately preceded (in the
model/draw event stream) by its own model-matrix upload, and the ten leaf
transforms carry Y rotations of `i * (360 / 10)` degrees for `i = 0..9`. -/
theorem c4_renderScene_draw_sequence :
    (∃ rest, renderedState.events =
      preparedState.events ++ (SetupSceneLights initialState).events ++
        rest) ∧
    drawCalls preparedState.events = [] ∧
    drawCalls renderedState.events =
      ([.plane, .plane, .cylinder, .cylinder, .taperedCylinder, .sphere,
        .cylinder, .cylinder, .cylinder, .sphere] ++
       List.replicate 10 ShapeKind.taperedCylinder) ∧
    modelsAndDraws renderedState.events =
      ([.setMat4 "model" (modelMatrix ⟨40.0, 1.0, 40.0⟩ (-90.0) 0.0 0.0
          ⟨0.0, 4.0, -10.0⟩), .draw .plane,
        .setMat4 "model" (modelMatrix ⟨20.0, 1.0, 20.0⟩ 0.0 0.0 0.0
          ⟨0.0, -0.5, 0.0⟩), .draw .plane,
        .setMat4 "model" (modelMatrix ⟨1.5, 0.2, 1.5⟩ 0.0 0.0 0.0
          ⟨5.0, 0.0, 0.0⟩), .draw .cylinder,
        .setMat4 "model" (modelMatrix ⟨0.05, 4.0, 0.05⟩ 0.0 0.0 0.0
          ⟨6.0, 0.0, 0.0⟩), .draw .cylinder,
        .setMat4 "model" (modelMatrix ⟨1.2, 1.5, 1.2⟩ (-45.0) 0.0 0.0
          ⟨5.5, 3.8, 0.0⟩), .draw .taperedCylinder,
        .setMat4 "model" (modelMatrix ⟨0.2, 0.2, 0.2⟩ 0.0 0.0 0.0
          ⟨5.5, 3.6, 0.0⟩), .draw .sphere,
        .setMat4 "model" (modelMatrix ⟨0.15, 0.3, 0.15⟩ 0.0 0.0 90.0
          ⟨6.0, 4.0, -0.2⟩), .draw .cylinder,
        .setMat4 "model" (modelMatrix ⟨1.6, 0.05, 1.6⟩ 90.0 0.0 0.0
          ⟨-2.0, 7.0, -4.95⟩), .draw .cylinder,
        .setMat4 "model" (modelMatrix ⟨1.5, 0.1, 1.5⟩ 90.0 0.0 0.0
          ⟨-2.0, 7.0, -4.9⟩), .draw .cylinder,
        .setMat4 "model" (modelMatrix ⟨1.2, 1.0, 1.2⟩ 0.0 0.0 0.0
          ⟨2.0, 0.5, 0.0⟩), .draw .sphere] ++
       (List.range 10).flatMap (fun i =>
        [.setMat4 "model" (modelMatrix
            ⟨0.12, 1.5 + (i % 3 : ℕ) * 0.2, 0.4⟩
            (20.0 + (i : ℝ) * 3.0) ((i : ℝ) * (360.0 / 10))
            (if i % 2 = 0 then 5.0 else -5.0) ⟨2.0, 1.3, 0.0⟩),
         .draw .taperedCylinder])) := by
  refine ⟨⟨renderedState.events.drop
      (preparedState.events.length +
        (SetupSceneLights initialState).events.length), ?_⟩, ?_, ?_, ?_⟩ <;>
    rfl
